import Mathlib

/-!
Shallow embedding of the `trainer` personal-finance application
(`src/transactions/views.py`, `src/transactions/forms.py`).

Conventions of the embedding:
* Database tables are Lean lists of records; primary keys are `Nat`.
* `Decimal` amounts and balances are modelled as `Rat` (exact arithmetic,
  as Python's `Decimal` for the operations used: `+`, `-`, `*`, `>`).
* Dates are modelled as `Int` day numbers; `date__gte` / `date__lte`
  become `≤` on `Int`.
* Each Django ORM model instance held in a Python variable carries a
  snapshot of its row as of the query that fetched it, and `save()`
  writes all of the snapshot's fields back.  This matters in
  `TransactionUpdateView.form_valid`: `form.instance.card` is resolved by
  `ModelChoiceField` while `form.is_valid()` runs, i.e. BEFORE
  `old_card.save()`, so its `balance` snapshot predates the reversal
  write.  The embedding keeps that evaluation order explicit.
-/

namespace Trainer

/-- Transaction / category type: the `type` field with choices
`income` / `expense`. -/
inductive TxnType where
  | income
  | expense
deriving DecidableEq, Repr, BEq

/-- A row of the `Card` table: the fields the transaction views touch
(`id`, `user`, `balance`); other columns (masked number, card system,
`is_active`, ...) play no role in the claims. -/
structure Card where
  id : Nat
  user : Nat
  balance : Rat
deriving DecidableEq, Repr

/-- A row of the `Category` table, as used by `TransactionForm.__init__`:
owner, type, active flag and name (`category__name` joins in the
dashboard). -/
structure Category where
  id : Nat
  user : Nat
  ctype : TxnType
  is_active : Bool
  name : String
deriving DecidableEq, Repr

/-- A row of the `Transaction` table: `user`, `type`, `amount`,
`category` (nullable), `card` (nullable: "Наличными / Без карты"),
`date`. -/
structure Txn where
  id : Nat
  user : Nat
  ttype : TxnType
  amount : Rat
  category : Option Nat
  card : Option Nat
  date : Int
deriving DecidableEq, Repr

/-- Fetch a card row by primary key (`Card.objects.get(pk=cid)` /
lazy foreign-key access `transaction.card`). -/
def getCard (cards : List Card) (cid : Nat) : Option Card :=
  cards.find? (fun c => c.id == cid)

/-- Balance of a card row by primary key. -/
def getBalance (cards : List Card) (cid : Nat) : Option Rat :=
  (getCard cards cid).map Card.balance

/-- Effect of `card.save()` on the card table when the saved instance has
id `cid` and balance `b`: the row's balance is overwritten with the
instance's value. -/
def setBalance (cards : List Card) (cid : Nat) (b : Rat) : List Card :=
  cards.map (fun c => if c.id == cid then { c with balance := b } else c)

/-- Signed effect of a transaction on its card's balance: `+amount` for
income, `-amount` for expense (the spec's "subtract/add the amount
depending on transaction type"). -/
def signedEffect (t : TxnType) (a : Rat) : Rat :=
  match t with
  | .income => a
  | .expense => -a

/-- Application state: the three tables the transaction views read and
write. -/
structure AppState where
  cards : List Card
  cats : List Category
  txns : List Txn
deriving DecidableEq, Repr

/-- `TransactionCreateView.form_valid` (src/transactions/views.py:220-232):
`super().form_valid(form)` saves the new transaction row, then, if the
transaction has a card, the card's balance is increased by the amount for
income and decreased for expense, and the card is saved. -/
def applyCreate (st : AppState) (t : Txn) : AppState :=
  let st1 : AppState := { st with txns := st.txns ++ [t] }
  match t.card with
  | none => st1
  | some cid =>
    match getCard st1.cards cid with
    | none => st1
    | some c =>
      { st1 with
        cards := setBalance st1.cards cid
          (if t.ttype = TxnType.income then c.balance + t.amount
           else c.balance - t.amount) }

/-- `TransactionUpdateView.form_valid` (src/transactions/views.py:258-280).
`old_transaction = self.get_object()` re-reads the old row and
`old_card = old_transaction.card` re-reads its card fresh at that point;
the old effect is reversed and `old_card.save()` persists it.  Then
`super().form_valid(form)` saves the edited transaction, and the new
effect is applied to `new_card = form.instance.card` — an object whose
balance snapshot was taken by `ModelChoiceField` during `form.is_valid()`,
i.e. from the table state BEFORE the reversal write — and
`new_card.save()` writes that snapshot-based balance back. -/
def applyUpdate (st : AppState) (oldT newT : Txn) : AppState :=
  let snap : Option Card := newT.card.bind (getCard st.cards)
  let cards1 : List Card :=
    match oldT.card with
    | none => st.cards
    | some cid =>
      match getCard st.cards cid with
      | none => st.cards
      | some c =>
        setBalance st.cards cid
          (if oldT.ttype = TxnType.income then c.balance - oldT.amount
           else c.balance + oldT.amount)
  let txns1 : List Txn := st.txns.map (fun t => if t.id == oldT.id then newT else t)
  let cards2 : List Card :=
    match newT.card, snap with
    | some cid, some c =>
      setBalance cards1 cid
        (if newT.ttype = TxnType.income then c.balance + newT.amount
         else c.balance - newT.amount)
    | _, _ => cards1
  { st with cards := cards2, txns := txns1 }

/-- `TransactionDeleteView.delete` (src/transactions/views.py:288-299):
the transaction's effect on its card (if any) is reversed and the card
saved, then the transaction row is deleted. -/
def applyDelete (st : AppState) (t : Txn) : AppState :=
  let cards1 : List Card :=
    match t.card with
    | none => st.cards
    | some cid =>
      match getCard st.cards cid with
      | none => st.cards
      | some c =>
        setBalance st.cards cid
          (if t.ttype = TxnType.income then c.balance - t.amount
           else c.balance + t.amount)
  { st with cards := cards1, txns := st.txns.filter (fun x => !(x.id == t.id)) }

/-- Data a bound `TransactionForm` carries: the form's `Meta.fields`
`["type", "amount", "category", "card", "date", "description"]`
(src/transactions/forms.py:11). -/
structure FormData where
  ttype : TxnType
  amount : Rat
  category : Nat
  card : Option Nat
  date : Int
  description : String
deriving DecidableEq, Repr

/-- The card choices offered by `TransactionForm.__init__`
(src/transactions/forms.py:18): `Card.objects.filter(user=user)`. -/
def formCardQueryset (cards : List Card) (u : Nat) : List Card :=
  cards.filter (fun c => c.user == u)

/-- The category choices offered by `TransactionForm.__init__`
(src/transactions/forms.py:23-37):
`Category.objects.filter(user=user, is_active=True)`, further filtered by
the submitted transaction type when it is `income` or `expense` (for a
bound form the submitted `type` is always one of the two choices).
The final `order_by("name")` does not change membership and is omitted. -/
def formCategoryQueryset (cats : List Category) (u : Nat) (txType : TxnType) :
    List Category :=
  (cats.filter (fun c => c.user == u && c.is_active)).filter
    (fun c => c.ctype == txType)

/-- Validation of a bound `TransactionForm`: the submitted card (when one
is chosen; the empty choice is the cash option) must be among the form's
card choices and the submitted category among its category choices —
Django's `ModelChoiceField` rejects any value outside `field.queryset`. -/
def formIsValid (st : AppState) (u : Nat) (fd : FormData) : Bool :=
  (match fd.card with
   | none => true
   | some cid => (formCardQueryset st.cards u).any (fun c => c.id == cid)) &&
  (formCategoryQueryset st.cats u fd.ttype).any (fun c => c.id == fd.category)

/-- The transaction instance a valid form saves:
`form.instance.user = self.request.user` is set by the views before
saving; the other fields come from the form data; `newId` is the primary
key the database assigns. -/
def txnOfForm (newId : Nat) (u : Nat) (fd : FormData) : Txn :=
  { id := newId, user := u, ttype := fd.ttype, amount := fd.amount,
    category := some fd.category, card := fd.card, date := fd.date }

/-- `TransactionCreateView` handling a POST
(src/transactions/views.py:209-232): when the bound form validates,
`form_valid` saves the transaction and adjusts the card balance
(`applyCreate`); otherwise the framework re-renders the form with its
validation errors and nothing is written. -/
def createViewPost (st : AppState) (u : Nat) (newId : Nat) (fd : FormData) :
    AppState :=
  if formIsValid st u fd then applyCreate st (txnOfForm newId u fd) else st

/-- Object lookup of `TransactionUpdateView` (src/transactions/views.py:250-251):
`get_queryset` returns `Transaction.objects.filter(user=self.request.user)`,
so `get_object` finds a transaction only among the requesting user's own. -/
def updateViewLookup (txns : List Txn) (u : Nat) (tid : Nat) : Option Txn :=
  (txns.filter (fun t => t.user == u)).find? (fun t => t.id == tid)

/-- Base queryset of `TransactionListView` (src/transactions/views.py:179):
`Transaction.objects.filter(user=self.request.user)`. -/
def listViewQueryset (txns : List Txn) (u : Nat) : List Txn :=
  txns.filter (fun t => t.user == u)

/-- Object lookup of `TransactionDeleteView` (src/transactions/views.py:283-289):
the class defines no `get_queryset` and no `LoginRequiredMixin`, so
`get_object` runs over the default queryset `Transaction.objects.all()`,
regardless of who requests. -/
def deleteViewLookup (txns : List Txn) (tid : Nat) : Option Txn :=
  txns.find? (fun t => t.id == tid)

/-- `TransactionDeleteView` handling a delete request for primary key
`tid`: the object is looked up over the unfiltered table and
`delete` reverses its card effect and removes the row. -/
def deleteViewPost (st : AppState) (tid : Nat) : AppState :=
  match deleteViewLookup st.txns tid with
  | none => st
  | some t => applyDelete st t

/-- The card the dashboard selects (src/transactions/views.py:42-51):
the `card` GET parameter, when it is a digit string, is looked up in
`Card.objects.filter(user=user)`; `cp = none` covers a missing or
non-digit parameter. -/
def selectedCard (cards : List Card) (u : Nat) (cp : Option Nat) : Option Card :=
  match cp with
  | none => none
  | some i => (cards.filter (fun c => c.user == u)).find? (fun c => c.id == i)

/-- The aggregate figures `DashboardView.get_context_data` puts in the
context (src/transactions/views.py:54-81). -/
structure DashboardData where
  income : Rat
  expense : Rat
  balance : Rat
deriving DecidableEq, Repr

/-- `DashboardView.get_context_data`, lines 54-81 of
src/transactions/views.py: transactions are filtered to the user and the
period (`date__gte=start_date, date__lte=today`), then to the selected
card when one is chosen; `income` and `expense` are `Sum("amount")`
aggregates over the `income` / `expense` subsets (`or Decimal("0")` when
empty — the empty sum is 0 here); `balance` is the selected card's
balance, or `Sum("balance")` over the user's cards when no card is
selected.  `start` and `today` are the period bounds computed earlier in
the method. -/
def dashboard (cards : List Card) (txns : List Txn) (u : Nat)
    (start today : Int) (cp : Option Nat) : DashboardData :=
  let sel := selectedCard cards u cp
  let base := txns.filter
    (fun t => t.user == u && decide (start ≤ t.date) && decide (t.date ≤ today))
  let base2 := match sel with
    | none => base
    | some c => base.filter (fun t => t.card == some c.id)
  let income := ((base2.filter (fun t => t.ttype == TxnType.income)).map Txn.amount).sum
  let expense := ((base2.filter (fun t => t.ttype == TxnType.expense)).map Txn.amount).sum
  let balance := match sel with
    | some c => c.balance
    | none => ((cards.filter (fun c => c.user == u)).map Card.balance).sum
  ⟨income, expense, balance⟩

/-- The messages `DashboardView.generate_ai_recommendations` can emit
(src/transactions/views.py:106-168), one constructor per `append` site;
numeric data interpolated into a message text is carried as a payload. -/
inductive Recommendation where
  | overspend (diff : Rat)
  | topSpendCategory (cat : Option String) (total : Rat)
  | fastWeeklyGrowth
  | highAverage (avg : Rat)
  | singleCategory
  | balanced
deriving DecidableEq, Repr

/-- The `category__name` join value of a transaction: the name of its
category, `none` when the transaction has no category (a row with a
dangling category id also yields `none`; in the database the foreign key
always resolves). -/
def categoryName (cats : List Category) (t : Txn) : Option String :=
  match t.category with
  | none => none
  | some i => (cats.find? (fun c => c.id == i)).map Category.name

/-- The expense subset `transactions.filter(type="expense")`. -/
def expenseTxns (txns : List Txn) : List Txn :=
  txns.filter (fun t => t.ttype == TxnType.expense)

/-- Total amount of the expense transactions whose `category__name` is
`key` (one group of the `values("category__name").annotate(Sum)` query). -/
def keyTotal (cats : List Category) (txns : List Txn) (key : Option String) : Rat :=
  (((expenseTxns txns).filter (fun t => categoryName cats t == key)).map Txn.amount).sum

/-- `top_cat` (src/transactions/views.py:116-122): the expense
transactions grouped by `category__name`, ordered by descending total,
first group — i.e. a group of maximal total, `none` when there is no
expense transaction.  The database's order among equal totals is
unspecified; the fold keeps the earliest maximal group. -/
def topCat (cats : List Category) (txns : List Txn) :
    Option (Option String × Rat) :=
  (((expenseTxns txns).map (categoryName cats)).dedup).foldl
    (fun acc k =>
      let tot := keyTotal cats txns k
      match acc with
      | none => some (k, tot)
      | some (k0, t0) => if tot > t0 then some (k, tot) else some (k0, t0))
    none

/-- Rule 1 (lines 110-113): overspending, fires when `expense > income`;
the message reports `expense - income`. -/
def rule1 (income expense : Rat) : List Recommendation :=
  if expense > income then [Recommendation.overspend (expense - income)] else []

/-- Rule 2 (lines 116-126): the top expense category, fires whenever
`top_cat` is truthy, i.e. whenever some expense transaction exists. -/
def rule2 (cats : List Category) (txns : List Txn) : List Recommendation :=
  match topCat cats txns with
  | some kt => [Recommendation.topSpendCategory kt.1 kt.2]
  | none => []

/-- `week_expense` (lines 129-134): total expense within the last 7 days
(`date__gte=week_ago` with `week_ago = now - 7`); `or 0` when empty. -/
def weekExpense (txns : List Txn) (now : Int) : Rat :=
  ((txns.filter
      (fun t => t.ttype == TxnType.expense && decide (now - 7 ≤ t.date))).map
    Txn.amount).sum

/-- Rule 3 (lines 136-139): fast expense growth, fires when
`week_expense > 0` and `week_expense > expense * Decimal("0.5")`. -/
def rule3 (txns : List Txn) (expense : Rat) (now : Int) : List Recommendation :=
  if weekExpense txns now > 0 ∧ weekExpense txns now > expense * (1 / 2) then
    [Recommendation.fastWeeklyGrowth]
  else []

/-- `expenses_list` (lines 142-144): the amounts of the expense
transactions.  The source converts each `Decimal` to `float`; the
embedding keeps exact arithmetic. -/
def expenseAmounts (txns : List Txn) : List Rat :=
  (expenseTxns txns).map Txn.amount

/-- Rule 4 (lines 145-150): high average purchase, fires when the
expense list is non-empty and its average exceeds 3000. -/
def rule4 (txns : List Txn) : List Recommendation :=
  if expenseAmounts txns = [] then []
  else
    let avg := (expenseAmounts txns).sum / ((expenseAmounts txns).length : Rat)
    if avg > 3000 then [Recommendation.highAverage avg] else []

/-- `categories_count` (lines 153-158): the number of distinct `category`
values (foreign-key ids, a missing category counted as its own value)
among the expense transactions. -/
def categoriesCount (txns : List Txn) : Nat :=
  (((expenseTxns txns).map Txn.category).dedup).length

/-- Rule 5 (lines 159-162): low diversification, fires when the expense
transactions use exactly one distinct category. -/
def rule5 (txns : List Txn) : List Recommendation :=
  if categoriesCount txns = 1 then [Recommendation.singleCategory] else []

/-- `DashboardView.generate_ai_recommendations`
(src/transactions/views.py:106-168): the five rules append their messages
in order (sequential `append`s are concatenation), and when no rule fired
the fallback message is appended (lines 165-166).  The `user` parameter
is unused in the source body and carried for fidelity; `now` is
`datetime.now().date()` of rule 3. -/
def generate_ai_recommendations (u : Nat) (cats : List Category)
    (txns : List Txn) (income expense : Rat) (now : Int) : List Recommendation :=
  if rule1 income expense ++ rule2 cats txns ++ rule3 txns expense now
      ++ rule4 txns ++ rule5 txns = []
  then [Recommendation.balanced]
  else rule1 income expense ++ rule2 cats txns ++ rule3 txns expense now
      ++ rule4 txns ++ rule5 txns

theorem getCard_setBalance (l : List Card) (i : Nat) (b : Rat) (j : Nat) :
    getCard (setBalance l i b) j
      = (getCard l j).map (fun c => if c.id == i then { c with balance := b } else c) := by
  unfold getCard setBalance
  rw [List.find?_map]
  have hp : ((fun c => c.id == j) ∘ fun c =>
      if c.id == i then ({ c with balance := b } : Card) else c) = fun c => c.id == j := by
    funext c
    by_cases h : c.id = i <;> simp [h, Function.comp]
  rw [hp]

theorem getCard_setBalance_self (l : List Card) (i : Nat) (b : Rat) :
    getCard (setBalance l i b) i = (getCard l i).map (fun c => { c with balance := b }) := by
  rw [getCard_setBalance]
  cases hf : getCard l i with
  | none => rfl
  | some c =>
    unfold getCard at hf
    have hc : c.id = i := by simpa using List.find?_some hf
    simp [hc]

theorem getCard_setBalance_ne (l : List Card) (i j : Nat) (b : Rat) (h : j ≠ i) :
    getCard (setBalance l i b) j = getCard l j := by
  rw [getCard_setBalance]
  cases hf : getCard l j with
  | none => rfl
  | some c =>
    unfold getCard at hf
    have hc : c.id = j := by simpa using List.find?_some hf
    have hne : c.id ≠ i := by omega
    simp [hne]

/-- C2: a successfully created transaction with an associated card changes
that card's balance by exactly the transaction amount — increased for an
income transaction, decreased for an expense one (the signed effect). -/
theorem create_adjusts_card_balance (st : AppState) (t : Txn) (cid : Nat) (c : Card)
    (hcard : t.card = some cid) (hget : getCard st.cards cid = some c) :
    getBalance (applyCreate st t).cards cid
      = some (c.balance + signedEffect t.ttype t.amount) := by
  unfold applyCreate
  rw [hcard]
  simp only
  rw [hget]
  simp only
  unfold getBalance
  rw [getCard_setBalance_self, hget]
  cases t.ttype <;> simp [signedEffect, sub_eq_add_neg]

theorem create_adjusts_card_balance_witness :
    ((⟨1, 1, TxnType.income, 40, none, some 7, 0⟩ : Txn).card = some 7
      ∧ getCard [(⟨7, 1, 100⟩ : Card)] 7 = some ⟨7, 1, 100⟩)
    ∧ getBalance (applyCreate ⟨[⟨7, 1, 100⟩], [], []⟩
        ⟨1, 1, TxnType.income, 40, none, some 7, 0⟩).cards 7
      = some ((100 : Rat) + signedEffect TxnType.income 40) :=
  ⟨⟨rfl, rfl⟩,
    create_adjusts_card_balance ⟨[⟨7, 1, 100⟩], [], []⟩
      ⟨1, 1, TxnType.income, 40, none, some 7, 0⟩ 7 ⟨7, 1, 100⟩ rfl rfl⟩

/-- C3: deleting a transaction with an associated card reverses the
transaction's effect on that card's balance (the amount is subtracted for
income and added back for expense), and every other card's balance is
unchanged. -/
theorem delete_reverses_card_balance (st : AppState) (t : Txn) (cid : Nat) (c : Card)
    (hcard : t.card = some cid) (hget : getCard st.cards cid = some c) :
    getBalance (applyDelete st t).cards cid
        = some (c.balance - signedEffect t.ttype t.amount)
    ∧ ∀ cid2, cid2 ≠ cid →
        getBalance (applyDelete st t).cards cid2 = getBalance st.cards cid2 := by
  unfold applyDelete
  rw [hcard]
  simp only
  rw [hget]
  simp only
  constructor
  · unfold getBalance
    rw [getCard_setBalance_self, hget]
    cases t.ttype <;> simp [signedEffect, sub_eq_add_neg]
  · intro cid2 hne
    unfold getBalance
    rw [getCard_setBalance_ne _ _ _ _ hne]

theorem delete_reverses_card_balance_witness :
    getBalance (applyDelete ⟨[⟨7, 1, 100⟩, ⟨8, 1, 5⟩], [],
        [⟨1, 1, TxnType.income, 40, none, some 7, 0⟩]⟩
        ⟨1, 1, TxnType.income, 40, none, some 7, 0⟩).cards 7
      = some ((100 : Rat) - signedEffect TxnType.income 40)
    ∧ getBalance (applyDelete ⟨[⟨7, 1, 100⟩, ⟨8, 1, 5⟩], [],
        [⟨1, 1, TxnType.income, 40, none, some 7, 0⟩]⟩
        ⟨1, 1, TxnType.income, 40, none, some 7, 0⟩).cards 8
      = getBalance [(⟨7, 1, 100⟩ : Card), ⟨8, 1, 5⟩] 8 :=
  ⟨(delete_reverses_card_balance ⟨[⟨7, 1, 100⟩, ⟨8, 1, 5⟩], [],
      [⟨1, 1, TxnType.income, 40, none, some 7, 0⟩]⟩
      ⟨1, 1, TxnType.income, 40, none, some 7, 0⟩ 7 ⟨7, 1, 100⟩ rfl rfl).1,
   (delete_reverses_card_balance ⟨[⟨7, 1, 100⟩, ⟨8, 1, 5⟩], [],
      [⟨1, 1, TxnType.income, 40, none, some 7, 0⟩]⟩
      ⟨1, 1, TxnType.income, 40, none, some 7, 0⟩ 7 ⟨7, 1, 100⟩ rfl rfl).2 8
      (by decide)⟩

/-- C9: creating a transaction with no associated card (the cash option)
creates the transaction record but leaves the card table, hence every
card's balance, unchanged. -/
theorem create_without_card_keeps_balances (st : AppState) (t : Txn)
    (h : t.card = none) :
    (applyCreate st t).cards = st.cards
    ∧ (applyCreate st t).txns = st.txns ++ [t] := by
  unfold applyCreate
  rw [h]
  exact ⟨rfl, rfl⟩

theorem create_without_card_keeps_balances_witness :
    (applyCreate ⟨[⟨7, 1, 100⟩], [], []⟩
        ⟨1, 1, TxnType.expense, 40, none, none, 0⟩).cards = [⟨7, 1, 100⟩]
    ∧ (applyCreate ⟨[⟨7, 1, 100⟩], [], []⟩
        ⟨1, 1, TxnType.expense, 40, none, none, 0⟩).txns
      = [] ++ [⟨1, 1, TxnType.expense, 40, none, none, 0⟩] :=
  create_without_card_keeps_balances ⟨[⟨7, 1, 100⟩], [], []⟩
    ⟨1, 1, TxnType.expense, 40, none, none, 0⟩ rfl

/-- C7: when the submitted transaction-create form fails validation, the
request leaves the state untouched: no transaction row is created and the
card table — hence every card's balance — is unchanged. -/
theorem create_invalid_form_atomic (st : AppState) (u : Nat) (newId : Nat)
    (fd : FormData) (h : formIsValid st u fd = false) :
    (createViewPost st u newId fd).txns = st.txns
    ∧ (createViewPost st u newId fd).cards = st.cards := by
  unfold createViewPost
  rw [h]
  exact ⟨rfl, rfl⟩

theorem create_invalid_form_atomic_witness :
    formIsValid ⟨[⟨7, 2, 100⟩], [⟨3, 2, TxnType.income, true, "pay"⟩], []⟩ 1
        ⟨TxnType.income, 40, 3, some 7, 0, ""⟩ = false
    ∧ (createViewPost ⟨[⟨7, 2, 100⟩], [⟨3, 2, TxnType.income, true, "pay"⟩], []⟩ 1 5
        ⟨TxnType.income, 40, 3, some 7, 0, ""⟩).txns = []
    ∧ (createViewPost ⟨[⟨7, 2, 100⟩], [⟨3, 2, TxnType.income, true, "pay"⟩], []⟩ 1 5
        ⟨TxnType.income, 40, 3, some 7, 0, ""⟩).cards = [⟨7, 2, 100⟩] :=
  ⟨by decide,
    (create_invalid_form_atomic ⟨[⟨7, 2, 100⟩], [⟨3, 2, TxnType.income, true, "pay"⟩], []⟩
      1 5 ⟨TxnType.income, 40, 3, some 7, 0, ""⟩ (by decide)).1,
    (create_invalid_form_atomic ⟨[⟨7, 2, 100⟩], [⟨3, 2, TxnType.income, true, "pay"⟩], []⟩
      1 5 ⟨TxnType.income, 40, 3, some 7, 0, ""⟩ (by decide)).2⟩

/-- C1 (failing input): updating a transaction that keeps its card does
NOT leave the net balance change equal to new signed effect minus old
signed effect.  Card 1 starts at 100; the old transaction is an income of
40 on card 1, the new one an income of 10 on the same card.  The reversal
write (balance 60) is overwritten by the save of the new-card object,
whose balance snapshot (100) was taken during form validation, so the
final balance is 110 — not 100 + (10 - 40) = 70 as the claim requires. -/
theorem update_same_card_loses_reversal :
    getBalance (applyUpdate
        ⟨[⟨1, 1, 100⟩], [], [⟨1, 1, TxnType.income, 40, none, some 1, 0⟩]⟩
        ⟨1, 1, TxnType.income, 40, none, some 1, 0⟩
        ⟨1, 1, TxnType.income, 10, none, some 1, 0⟩).cards 1
      = some 110
    ∧ some ((100 : Rat)
          + (signedEffect TxnType.income 10 - signedEffect TxnType.income 40))
        ≠ some (110 : Rat) := by
  constructor
  · norm_num [applyUpdate, getBalance, getCard, setBalance, List.find?, Option.bind]
  · norm_num [signedEffect]

/-- C5: the delete view's object lookup runs over the unfiltered
transaction table, so a requesting user can reach — and by deleting,
change the card balance of — a transaction owned by a different user,
while the update view's lookup and the list view's queryset exclude it. -/
theorem delete_view_reaches_foreign_transactions :
    ∃ (st : AppState) (u tid : Nat) (t : Txn) (cid : Nat),
      deleteViewLookup st.txns tid = some t
      ∧ t.user ≠ u
      ∧ updateViewLookup st.txns u tid = none
      ∧ t ∉ listViewQueryset st.txns u
      ∧ t.card = some cid
      ∧ (∀ c ∈ st.cards, c.user ≠ u)
      ∧ getBalance (deleteViewPost st tid).cards cid ≠ getBalance st.cards cid := by
  refine ⟨⟨[⟨1, 1, 100⟩], [], [⟨1, 1, TxnType.income, 40, none, some 1, 0⟩]⟩,
    2, 1, ⟨1, 1, TxnType.income, 40, none, some 1, 0⟩, 1, ?_, ?_, ?_, ?_, ?_, ?_, ?_⟩
  · decide
  · decide
  · decide
  · decide
  · decide
  · decide
  · norm_num [deleteViewPost, deleteViewLookup, applyDelete, getBalance, getCard,
      setBalance, List.find?]

/-- C4: the transaction form built for a user offers only that user's
cards and only that user's active categories (further narrowed to the
submitted type), and consequently a transaction saved through a valid
form carries the requesting user and references only a card and a
category owned by that same user. -/
theorem form_enforces_ownership (st : AppState) (u : Nat) (fd : FormData)
    (h : formIsValid st u fd = true) :
    (∀ c ∈ formCardQueryset st.cards u, c.user = u)
    ∧ (∀ cat ∈ formCategoryQueryset st.cats u fd.ttype,
        cat.user = u ∧ cat.is_active = true)
    ∧ (∀ newId, (txnOfForm newId u fd).user = u)
    ∧ (∀ cid, fd.card = some cid → ∃ c ∈ st.cards, c.id = cid ∧ c.user = u)
    ∧ (∃ cat ∈ st.cats, cat.id = fd.category ∧ cat.user = u
        ∧ cat.is_active = true) := by
  have hq : ∀ c ∈ formCardQueryset st.cards u, c.user = u := by
    intro c hc
    have hm := List.mem_filter.mp hc
    simpa using hm.2
  have hcatq : ∀ cat ∈ formCategoryQueryset st.cats u fd.ttype,
      cat.user = u ∧ cat.is_active = true := by
    intro cat hc
    unfold formCategoryQueryset at hc
    have h1 := List.mem_filter.mp hc
    have h2 := List.mem_filter.mp h1.1
    have h3 := h2.2
    rw [Bool.and_eq_true] at h3
    exact ⟨by simpa using h3.1, h3.2⟩
  unfold formIsValid at h
  rw [Bool.and_eq_true] at h
  refine ⟨hq, hcatq, fun newId => rfl, ?_, ?_⟩
  · intro cid hcid
    rw [hcid] at h
    obtain ⟨c, hc, hceq⟩ := List.any_eq_true.mp h.1
    exact ⟨c, (List.mem_filter.mp hc).1, by simpa using hceq, hq c hc⟩
  · obtain ⟨cat, hcmem, hceq⟩ := List.any_eq_true.mp h.2
    have hmem : cat ∈ st.cats := by
      unfold formCategoryQueryset at hcmem
      exact (List.mem_filter.mp (List.mem_filter.mp hcmem).1).1
    exact ⟨cat, hmem, by simpa using hceq, (hcatq cat hcmem).1,
      (hcatq cat hcmem).2⟩

theorem form_enforces_ownership_witness :
    formIsValid ⟨[⟨7, 1, 100⟩], [⟨3, 1, TxnType.income, true, "pay"⟩], []⟩ 1
        ⟨TxnType.income, 40, 3, some 7, 0, ""⟩ = true
    ∧ ((txnOfForm 5 1 ⟨TxnType.income, 40, 3, some 7, 0, ""⟩).user = 1
       ∧ (∃ c ∈ [(⟨7, 1, 100⟩ : Card)], c.id = 7 ∧ c.user = 1)
       ∧ (∃ cat ∈ [(⟨3, 1, TxnType.income, true, "pay"⟩ : Category)],
            cat.id = 3 ∧ cat.user = 1 ∧ cat.is_active = true)) := by
  have hv : formIsValid ⟨[⟨7, 1, 100⟩], [⟨3, 1, TxnType.income, true, "pay"⟩], []⟩ 1
      ⟨TxnType.income, 40, 3, some 7, 0, ""⟩ = true := by decide
  have hall := form_enforces_ownership
    ⟨[⟨7, 1, 100⟩], [⟨3, 1, TxnType.income, true, "pay"⟩], []⟩ 1
    ⟨TxnType.income, 40, 3, some 7, 0, ""⟩ hv
  exact ⟨hv, hall.2.2.1 5, hall.2.2.2.1 7 rfl, hall.2.2.2.2⟩

theorem filter_and_reorder {α : Type} (p q : α → Bool) (l : List α) :
    (l.filter p).filter q = l.filter (fun a => (p a && true) && q a) := by
  rw [List.filter_filter]
  refine List.filter_congr ?_
  intro a _
  cases p a <;> cases q a <;> rfl

theorem filter_filter_and3 {α : Type} (p q r : α → Bool) (l : List α) :
    ((l.filter p).filter q).filter r = l.filter (fun a => (p a && q a) && r a) := by
  rw [List.filter_filter, List.filter_filter]
  refine List.filter_congr ?_
  intro a _
  cases p a <;> cases q a <;> cases r a <;> rfl

/-- C6: the dashboard's income figure is the sum of the amounts of the
user's income transactions dated within the period (restricted to the
selected card when one is chosen), the expense figure the analogous sum
over expense transactions, and the displayed balance is the selected
card's balance, or the sum of the balances of all the user's cards when
no card is selected. -/
theorem dashboard_reports_sums (cards : List Card) (txns : List Txn) (u : Nat)
    (start today : Int) (cp : Option Nat) :
    (dashboard cards txns u start today cp).income
      = ((txns.filter (fun t =>
            t.user == u && decide (start ≤ t.date) && decide (t.date ≤ today)
            && (match selectedCard cards u cp with
                | none => true
                | some c => t.card == some c.id)
            && (t.ttype == TxnType.income))).map Txn.amount).sum
    ∧ (dashboard cards txns u start today cp).expense
      = ((txns.filter (fun t =>
            t.user == u && decide (start ≤ t.date) && decide (t.date ≤ today)
            && (match selectedCard cards u cp with
                | none => true
                | some c => t.card == some c.id)
            && (t.ttype == TxnType.expense))).map Txn.amount).sum
    ∧ (dashboard cards txns u start today cp).balance
      = (match selectedCard cards u cp with
         | some c => c.balance
         | none => ((cards.filter (fun c => c.user == u)).map Card.balance).sum) := by
  unfold dashboard
  cases hsel : selectedCard cards u cp with
  | none =>
    simp only [hsel]
    exact ⟨by rw [filter_and_reorder], by rw [filter_and_reorder], trivial⟩
  | some c =>
    simp only [hsel]
    exact ⟨by rw [filter_filter_and3], by rw [filter_filter_and3], trivial⟩

/-- C8: the recommendation list contains the overspending message exactly
when total expense strictly exceeds total income over the period, and the
message reports the difference expense minus income. -/
theorem overspend_message_iff (u : Nat) (cats : List Category) (txns : List Txn)
    (income expense : Rat) (now : Int) (d : Rat) :
    Recommendation.overspend d
        ∈ generate_ai_recommendations u cats txns income expense now
      ↔ (expense > income ∧ d = expense - income) := by
  have h1 : Recommendation.overspend d ∈ rule1 income expense
      ↔ (expense > income ∧ d = expense - income) := by
    unfold rule1
    split_ifs with hc <;> simp [hc]
  have h2 : Recommendation.overspend d ∉ rule2 cats txns := by
    unfold rule2
    cases topCat cats txns with
    | none => simp
    | some kt => simp
  have h3 : Recommendation.overspend d ∉ rule3 txns expense now := by
    unfold rule3
    split_ifs <;> simp
  have h4 : Recommendation.overspend d ∉ rule4 txns := by
    unfold rule4
    split_ifs <;> simp
  have h5 : Recommendation.overspend d ∉ rule5 txns := by
    unfold rule5
    split_ifs <;> simp
  unfold generate_ai_recommendations
  split_ifs with hnil
  · simp only [List.mem_singleton]
    constructor
    · intro hmem
      cases hmem
    · intro hrhs
      exfalso
      have hr1 : rule1 income expense = [] := by
        rcases List.append_eq_nil.mp hnil with ⟨hrest, -⟩
        rcases List.append_eq_nil.mp hrest with ⟨hrest2, -⟩
        rcases List.append_eq_nil.mp hrest2 with ⟨hrest3, -⟩
        exact (List.append_eq_nil.mp hrest3).1
      have := h1.mpr hrhs
      rw [hr1] at this
      exact List.not_mem_nil _ this
  · simp [List.mem_append, h1, h2, h3, h4, h5]

/-- C10: `generate_ai_recommendations` always returns a non-empty list,
and when none of the five heuristic rules fires it returns exactly the
single fallback message. -/
theorem recommendations_never_empty (u : Nat) (cats : List Category)
    (txns : List Txn) (income expense : Rat) (now : Int) :
    generate_ai_recommendations u cats txns income expense now ≠ []
    ∧ (rule1 income expense = [] → rule2 cats txns = []
       → rule3 txns expense now = [] → rule4 txns = [] → rule5 txns = []
       → generate_ai_recommendations u cats txns income expense now
          = [Recommendation.balanced]) := by
  constructor
  · unfold generate_ai_recommendations
    split_ifs with h
    · simp
    · exact h
  · intro h1 h2 h3 h4 h5
    unfold generate_ai_recommendations
    rw [h1, h2, h3, h4, h5]
    simp

theorem recommendations_never_empty_witness :
    generate_ai_recommendations 0 [] [] 0 0 0 ≠ []
    ∧ generate_ai_recommendations 0 [] [] 0 0 0 = [Recommendation.balanced] :=
  ⟨(recommendations_never_empty 0 [] [] 0 0 0).1,
   (recommendations_never_empty 0 [] [] 0 0 0).2
     (by norm_num [rule1]) rfl (by norm_num [rule3, weekExpense]) rfl
     (by norm_num [rule5, categoriesCount, expenseTxns])⟩

end Trainer
